import Mathlib

/-!
Verification development for the asset generation orchestration engine of the
ai-art-generation repository. Python dictionaries that are iterated in
insertion order are modelled as association lists (`List (String × _)`);
raising an exception is modelled as `Except`; `None`-able values as `Option`.
-/

namespace AIArt

/-! ## Data model

`ImageAssetItem` mirrors `src/schemas/dtos/request/image_request.py`:
an item declared under a category and subcategory. Pydantic enforces
`count ≥ 1`; the `resolution` override is optional. -/

structure ImageAssetItem where
  filename : String
  description : String
  count : Nat
  resolution : Option String
deriving Repr, DecidableEq

/-- One generation task, as built by `ImageHandler._parse_category_tasks`
(the dict literal at image_handler.py lines 416-425). -/
structure TaskInfo where
  category : String
  subcategory : String
  filename : String
  description : String
  index : Nat
  resolution : String
  has_template : Bool
  from_reference : Bool
deriving Repr, DecidableEq

/-! ## Task decomposition (`ImageHandler`, image_handler.py) -/

/-- The tasks one item expands to: the inner
`for index in range(1, item.count + 1)` loop of
`ImageHandler._parse_category_tasks`; `item.resolution or default_resolution`
falls back to the request default when the override is absent. -/
def itemTasks (category_name subcategory_name : String) (item : ImageAssetItem)
    (default_resolution : String) : List TaskInfo :=
  (List.range item.count).map fun i =>
    { category := category_name
      subcategory := subcategory_name
      filename := item.filename
      description := item.description
      index := i + 1
      resolution := item.resolution.getD default_resolution
      has_template := false
      from_reference := false }

/-- `ImageHandler._parse_category_tasks`: iterate subcategories, then items,
then indices 1..count. -/
def parse_category_tasks (category_name : String)
    (category_data : List (String × List ImageAssetItem))
    (default_resolution : String) : List TaskInfo :=
  category_data.flatMap fun sub =>
    sub.2.flatMap fun item => itemTasks category_name sub.1 item default_resolution

/-- `ImageHandler._parse_custom_content_tasks`: same expansion with the fixed
category name "custom" and the custom bucket name as subcategory. -/
def parse_custom_content_tasks (custom_content : List (String × List ImageAssetItem))
    (default_resolution : String) : List TaskInfo :=
  custom_content.flatMap fun sub =>
    sub.2.flatMap fun item => itemTasks "custom" sub.1 item default_resolution

/-- `SymbolsGenerationInput` (image_request.py): the declared content tree of a
symbols request. A bucket value of `none` is Python `None`; a present bucket is
an insertion-ordered dict of subcategory to item list. -/
structure SymbolsGenerationInput where
  base_symbols : Option (List (String × List ImageAssetItem))
  special_symbols : Option (List (String × List ImageAssetItem))
  custom_content : Option (List (String × List ImageAssetItem))
  default_resolution : String
deriving Repr

/-- Python truthiness of an optional dict: `None` and the empty dict are falsy. -/
def dictTruthy (o : Option (List (String × List ImageAssetItem))) : Bool :=
  match o with
  | none => false
  | some l => !l.isEmpty

/-- The `validate_at_least_one_content` pydantic model validator of
`SymbolsGenerationInput`: `any([self.base_symbols, self.special_symbols,
self.custom_content])` — at least one bucket must be truthy. -/
def validate_at_least_one_content (p : SymbolsGenerationInput) : Bool :=
  dictTruthy p.base_symbols || dictTruthy p.special_symbols || dictTruthy p.custom_content

/-- One category bucket of `ImageHandler._parse_generation_tasks`:
`category_data = getattr(params, name, None); if category_data: ...` — a falsy
bucket contributes nothing. -/
def bucketTasks (category_name : String)
    (bucket : Option (List (String × List ImageAssetItem)))
    (default_resolution : String) : List TaskInfo :=
  match bucket with
  | none => []
  | some l => if l.isEmpty then [] else parse_category_tasks category_name l default_resolution

/-- `ImageHandler._parse_generation_tasks` for a symbols request: the fixed
category names are `base_symbols` then `special_symbols`, then the custom
bucket. -/
def parse_generation_tasks (p : SymbolsGenerationInput) : List TaskInfo :=
  bucketTasks "base_symbols" p.base_symbols p.default_resolution
    ++ bucketTasks "special_symbols" p.special_symbols p.default_resolution
    ++ (match p.custom_content with
        | none => []
        | some l => if l.isEmpty then [] else parse_custom_content_tasks l p.default_resolution)

/-! ## Module status aggregation (`ImageHandler._build_result` and
`ImageHandler._execute_parallel_modules`) -/

/-- The status expression shared by `_build_result` (line 683) and
`_execute_parallel_modules` (line 653):
`"completed" if len(outputs) == total_tasks else ("partial_completed" if outputs else "failed")`. -/
def moduleStatus (successes total : Nat) : String :=
  if successes = total then "completed"
  else if successes ≠ 0 then "partial_completed"
  else "failed"

/-- `_build_result` recomputes the total from the declared generation params
(`total_tasks = len(self._parse_generation_tasks(request_data["generation_params"]))`)
and compares the successful outputs against it. -/
def build_result_status (num_outputs : Nat) (p : SymbolsGenerationInput) : String :=
  moduleStatus num_outputs (parse_generation_tasks p).length

/-! ## Request parsing (`ImageHandler._parse_request` / `_get_service`) -/

/-- Python exception kinds raised on the request-parsing path: `ValueError`
(raised directly by the handler) and the validation error pydantic raises when
a model validator fails. -/
inductive PyError where
  | valueError (msg : String)
  | pydanticValidationError (msg : String)
deriving Repr, DecidableEq

/-- Pydantic construction of `SymbolsGenerationInput`: running the
`validate_at_least_one_content` model validator. -/
def mkSymbolsGenerationInput (p : SymbolsGenerationInput) :
    Except PyError SymbolsGenerationInput :=
  if validate_at_least_one_content p then .ok p
  else .error (.pydanticValidationError "at least one of base_symbols, special_symbols, custom_content is required")

/-- `ImageHandler._parse_request` restricted to the symbols module:
`_get_service` raises `ValueError` for an unrecognized module name
(image_handler.py line 934), then the pydantic params object is constructed.
The registered services are symbols, ui and backgrounds. -/
def parse_request_symbols (module : String) (raw : SymbolsGenerationInput) :
    Except PyError SymbolsGenerationInput :=
  if module = "symbols" ∨ module = "ui" ∨ module = "backgrounds" then
    mkSymbolsGenerationInput raw
  else
    .error (.valueError ("unsupported module: " ++ module))

/-! ## Prompt composition (`BaseImageService.build_complete_prompt`,
`SymbolsService.build_content_prompt`) -/

/-- Python truthiness of an optional string: `None` and `""` are falsy. -/
def strTruthy (o : Option String) : Bool :=
  match o with
  | none => false
  | some s => !s.isEmpty

/-- The style data dict consumed by `build_complete_prompt`: only the keys it
reads. A `none` field models an absent key (so the `.get` default applies). -/
structure StyleData where
  style_prompt : Option String
  quality_tags : Option String
deriving Repr, DecidableEq

/-- The reference data dict consumed by `build_complete_prompt`: only the keys
it reads. `none` models an absent key. -/
structure RefData where
  asset_description : Option String
  reference_prompt : Option String
deriving Repr, DecidableEq

/-- `SymbolsService._get_category_requirements`: the nested clause table with
its two fallbacks — an unknown subcategory of a known category falls back to
that category first subcategory (dict insertion order: `low_value`, `wild`),
and an unknown category synthesizes generic clauses from its name. -/
def get_category_requirements (category subcategory : String) : List String :=
  if category = "base_symbols" then
    if subcategory = "low_value" then
      ["designed as a lower-value game symbol",
       "clean and recognizable design",
       "suitable for frequent appearance"]
    else if subcategory = "high_value" then
      ["designed as a high-value premium symbol",
       "ornate and eye-catching appearance",
       "detailed and luxurious design"]
    else
      ["designed as a lower-value game symbol",
       "clean and recognizable design",
       "suitable for frequent appearance"]
  else if category = "special_symbols" then
    if subcategory = "wild" then
      ["designed as a WILD symbol with powerful visual impact",
       "magical or mystical elements",
       "glowing effects",
       "besides main element, should have a frame, may include 'WILD' text and optional multiplier values in the same row"]
    else if subcategory = "scatter" then
      ["designed as a SCATTER symbol with dynamic energy",
       "radiating or explosive visual elements",
       "sparkling effects",
       "conveys bonus trigger functionality",
       "besides main element, should have a frame"]
    else if subcategory = "bonus" then
      ["designed as a BONUS symbol representing rewards",
       "treasure or prize-like elements",
       "golden glow or valuable appearance"]
    else
      ["designed as a WILD symbol with powerful visual impact",
       "magical or mystical elements",
       "glowing effects",
       "besides main element, should have a frame, may include 'WILD' text and optional multiplier values in the same row"]
  else
    ["designed as a " ++ category ++ " symbol",
     "distinctive and clear design",
     "optimized for game use"]

/-- `SymbolsService.build_content_prompt`: the five base requirement clauses
followed by the category clauses, comma-joined. The `art_style_data` argument
of the Python method is unused by the symbols implementation. -/
def build_content_prompt (task : TaskInfo) : String :=
  String.intercalate ", "
    (["Create a slot machine symbol: " ++ task.description,
      "high quality game asset",
      "centered composition",
      "clear silhouette",
      "suitable for slot machine gameplay"]
     ++ get_category_requirements task.category task.subcategory)

/-- `BaseImageService.build_complete_prompt` (base_image_service.py 190-234),
with the content prompt passed in as the subclass hook. Reference clauses are
appended only when the reference dict is truthy and the individual values are
truthy; the technical spec clause carries the `Technical specs: ` prefix. -/
def build_complete_prompt (contentPrompt : String) (style : StyleData)
    (task : TaskInfo) (ref : Option RefData) : String :=
  let styleP := style.style_prompt.getD "high quality artwork"
  let quality := style.quality_tags.getD "high quality, professional design"
  let base :=
    [contentPrompt,
     "Art style: " ++ styleP,
     "Category: " ++ task.category ++ ", Subcategory: " ++ task.subcategory]
  let refParts :=
    match ref with
    | none => []
    | some r =>
        (if strTruthy r.asset_description then ["Reference: " ++ r.asset_description.getD ""] else [])
        ++ (if strTruthy r.reference_prompt then ["Asset reference: " ++ r.reference_prompt.getD ""] else [])
  String.intercalate ", "
    (base ++ refParts
      ++ ["Technical specs: " ++ task.resolution ++ " resolution, isolated on transparent background",
          "Quality: " ++ quality])

/-- The complete prompt of a symbols task as the handler composes it:
`service.build_complete_prompt(task_info, art_style_data, reference_data)`. -/
def symbols_complete_prompt (task : TaskInfo) (style : StyleData)
    (ref : Option RefData) : String :=
  build_complete_prompt (build_content_prompt task) style task ref

/-- The optional reference clauses of the claimed prompt order, following the
wording of the claim (clause 4). -/
def claimed_ref_clauses (ref : Option RefData) : List String :=
  match ref with
  | none => []
  | some r =>
      (if strTruthy r.asset_description then ["Reference: " ++ r.asset_description.getD ""] else [])
        ++ (if strTruthy r.reference_prompt then ["Asset reference: " ++ r.reference_prompt.getD ""] else [])

/-- Modelled from the claim wording (not the source): the prompt built
clause-by-clause per the claimed order, with the technical spec clause exactly
`"{resolution} resolution, isolated on transparent background"` (no prefix).
Used to compare the claimed contract against the code. -/
def claimed_prompt_spec_clause (contentPrompt : String) (style : StyleData)
    (task : TaskInfo) (ref : Option RefData) : String :=
  String.intercalate ", "
    ([contentPrompt]
      ++ ["Art style: " ++ style.style_prompt.getD "high quality artwork"]
      ++ ["Category: " ++ task.category ++ ", Subcategory: " ++ task.subcategory]
      ++ claimed_ref_clauses ref
      ++ [task.resolution ++ " resolution, isolated on transparent background"]
      ++ ["Quality: " ++ style.quality_tags.getD "high quality, professional design"])

/-- Modelled from the claim wording as amended: like
`claimed_prompt_spec_clause` but with the technical spec clause carrying the
`Technical specs: ` prefix the code actually emits. -/
def claimed_prompt_amended (contentPrompt : String) (style : StyleData)
    (task : TaskInfo) (ref : Option RefData) : String :=
  String.intercalate ", "
    ([contentPrompt]
      ++ ["Art style: " ++ style.style_prompt.getD "high quality artwork"]
      ++ ["Category: " ++ task.category ++ ", Subcategory: " ++ task.subcategory]
      ++ claimed_ref_clauses ref
      ++ ["Technical specs: " ++ task.resolution ++ " resolution, isolated on transparent background"]
      ++ ["Quality: " ++ style.quality_tags.getD "high quality, professional design"])

/-! ## Art style resolver (`ArtStyleService`, art_style_service.py) -/

/-- The components block of a style descriptor. The Python dicts hold strings
or `None`; `Option String` models both, `none` being `None` (preset themes
fetch `materials` and `lighting` with `.get`). -/
structure StyleComponents where
  base_prompt : String
  color_palette : Option String
  effects : Option String
  materials : Option String
  lighting : Option String
  description : Option String
deriving Repr, DecidableEq

/-- The style descriptor dict every resolver mode returns (the keys the
orchestration reads). -/
structure StyleDescriptor where
  style_prompt : String
  mode : String
  components : StyleComponents
  quality_tags : String
deriving Repr, DecidableEq

/-- One entry of the fixed preset catalog `ArtStyleService.preset_themes`. -/
structure ThemeConfig where
  name : String
  base_prompt : String
  color_palette : String
  effects : String
  materials : String
  lighting : String
  description : String
deriving Repr, DecidableEq

/-- The read-only in-memory preset catalog (art_style_service.py 24-97). -/
def preset_themes : List (String × ThemeConfig) :=
  [("fantasy_medieval",
    { name := "Fantasy Medieval"
      base_prompt := "fantasy art, medieval style, detailed illustration"
      color_palette := "rich gold, deep red, royal blue, ancient bronze"
      effects := "glowing magical effect, mystical aura"
      materials := "aged parchment, worn metal, mystical gems"
      lighting := "warm torchlight, mysterious shadows"
      description := "Medieval fantasy style with rich colors and magical elements" }),
   ("cyberpunk_neon",
    { name := "Cyberpunk Neon"
      base_prompt := "cyberpunk style, neon aesthetic, futuristic design"
      color_palette := "electric blue, hot pink, acid green, chrome silver"
      effects := "neon glow, holographic shimmer, digital distortion"
      materials := "sleek metal, glass panels, LED strips"
      lighting := "harsh neon lighting, dramatic shadows"
      description := "Futuristic cyberpunk with neon colors and high-tech aesthetics" }),
   ("steampunk_bronze",
    { name := "Steampunk Bronze"
      base_prompt := "steampunk style, Victorian era, mechanical design"
      color_palette := "brass, copper, bronze, dark leather brown"
      effects := "steam effects, gear mechanisms, clockwork details"
      materials := "polished brass, worn leather, riveted metal"
      lighting := "warm gas lamp glow, industrial shadows"
      description := "Victorian steampunk with brass and mechanical elements" }),
   ("cosmic_space",
    { name := "Cosmic Space"
      base_prompt := "cosmic space theme, sci-fi aesthetic, stellar design"
      color_palette := "deep purple, starlight blue, cosmic gold, void black"
      effects := "stellar glow, nebula patterns, cosmic energy"
      materials := "crystalline structures, energy fields, metallic hull"
      lighting := "starlight, cosmic radiation glow"
      description := "Space-themed design with cosmic colors and stellar effects" }),
   ("nature_organic",
    { name := "Nature Organic"
      base_prompt := "organic nature style, natural elements, earthy design"
      color_palette := "forest green, earth brown, sky blue, sunset orange"
      effects := "natural texture, organic growth patterns, flowing forms"
      materials := "wood grain, stone texture, flowing water"
      lighting := "natural sunlight, forest dappled light"
      description := "Natural organic style with earth tones and organic shapes" }),
   ("dark_gothic",
    { name := "Dark Gothic"
      base_prompt := "dark gothic style, ornate details, dramatic atmosphere"
      color_palette := "deep black, blood red, silver, dark purple"
      effects := "dramatic shadows, ornate patterns, gothic details"
      materials := "carved stone, wrought iron, stained glass"
      lighting := "candlelight, moonlight, dramatic chiaroscuro"
      description := "Gothic architecture style with dark colors and ornate details" }),
   ("chinese_traditional",
    { name := "Chinese Traditional"
      base_prompt := "traditional Chinese art style, ink painting, classical design"
      color_palette := "imperial red, golden yellow, jade green, ink black"
      effects := "ink wash effects, flowing brush strokes, traditional patterns"
      materials := "silk texture, bamboo elements, jade stones, rice paper"
      lighting := "soft natural light, traditional lantern glow"
      description := "Traditional Chinese art with classical colors and cultural elements" }),
   ("space_scifi",
    { name := "Space Sci-Fi"
      base_prompt := "space science fiction, futuristic technology, stellar environment"
      color_palette := "electric blue, plasma purple, tech silver, void black"
      effects := "energy fields, holographic displays, stellar phenomena"
      materials := "advanced alloys, energy crystals, quantum materials"
      lighting := "artificial tech lighting, star field glow, energy emissions"
      description := "Advanced sci-fi space theme with high-tech elements and cosmic setting" })]

/-- Comma-join a clause list after dropping clauses whose strip is empty
(the `[comp for comp in parts if comp.strip()]` filters of the service). -/
def filterJoin (parts : List String) : String :=
  String.intercalate ", " (parts.filter fun p => !p.trim.isEmpty)

/-- `ArtStyleService.generate_preset_style`: catalog lookup (raising on an
unknown or empty theme name) and descriptor assembly. -/
def generate_preset_style (preset_theme : String) : Except String StyleDescriptor :=
  match (preset_themes.lookup preset_theme) with
  | none => .error ("unknown preset theme: " ++ preset_theme)
  | some cfg =>
      .ok { style_prompt :=
              filterJoin
                [cfg.base_prompt, cfg.color_palette, cfg.effects, cfg.materials,
                 cfg.lighting,
                 "isolated on transparent background",
                 "centered design, game asset style",
                 "high quality, professional design"]
            mode := "preset"
            components :=
              { base_prompt := cfg.base_prompt
                color_palette := some cfg.color_palette
                effects := some cfg.effects
                materials := some cfg.materials
                lighting := some cfg.lighting
                description := some cfg.description }
            quality_tags := "high quality, game asset style, professional design" }

/-- The caller-supplied components of the direct (non-AI) mode
(`ArtStyleComponents` in art_style_request.py): `base_prompt` required, the
rest optional. -/
structure DirectComponents where
  base_prompt : String
  color_palette : Option String
  effects : Option String
  materials : Option String
  lighting : Option String
  description : Option String
deriving Repr, DecidableEq

/-- Truthiness filter of `generate_custom_direct_style`
(`part and part.strip()`): a part that is `None`, empty or whitespace is
dropped. -/
def optTruthyStrip (o : Option String) : Bool :=
  match o with
  | none => false
  | some s => !s.isEmpty && !s.trim.isEmpty

/-- `ArtStyleService.generate_custom_direct_style`: the caller components are
used verbatim; the style prompt joins the truthy parts. -/
def generate_custom_direct_style (c : DirectComponents) : StyleDescriptor :=
  let styleParts :=
    ([some c.base_prompt, c.color_palette, c.effects, c.materials, c.lighting].filter
        optTruthyStrip).map (fun o => o.getD "")
      ++ ["isolated on transparent background",
          "centered design, game asset style",
          "high quality, professional design"]
  { style_prompt := String.intercalate ", " styleParts
    mode := "custom_direct"
    components :=
      { base_prompt := c.base_prompt
        color_palette := some (c.color_palette.getD "")
        effects := some (c.effects.getD "")
        materials := c.materials
        lighting := c.lighting
        description := none }
    quality_tags := "high quality, game asset style, professional design" }

/-- `ArtStyleHandler.handle_custom_direct_style_generation`: rejects a falsy
`base_prompt` (HTTP 400) before calling the service. -/
def handle_custom_direct_style_generation (c : DirectComponents) :
    Except String StyleDescriptor :=
  if c.base_prompt.isEmpty then .error "base_prompt must not be empty"
  else .ok (generate_custom_direct_style c)

/-! ## Structured AI responses

A parsed JSON object field is `Option (Option String)`: the outer `none` is a
missing key, `some none` is a JSON `null`, `some (some s)` a string value. -/

structure ComponentsJson where
  base_prompt : Option (Option String)
  color_palette : Option (Option String)
  effects : Option (Option String)
  materials : Option (Option String)
  lighting : Option (Option String)
  description : Option (Option String)
deriving Repr, DecidableEq

/-- The names of the 6 required component keys that are missing (outer
`none`), in the order the Python loop checks them. -/
def missingComponentFields (c : ComponentsJson) : List String :=
  (if c.base_prompt.isNone then ["base_prompt"] else [])
    ++ (if c.color_palette.isNone then ["color_palette"] else [])
    ++ (if c.effects.isNone then ["effects"] else [])
    ++ (if c.materials.isNone then ["materials"] else [])
    ++ (if c.lighting.isNone then ["lighting"] else [])
    ++ (if c.description.isNone then ["description"] else [])

/-- The model response of the AI-enhanced mode: `none` for a reply that is not
well-formed JSON; otherwise the `components` and `enhanced_prompt` keys. -/
structure EnhanceResp where
  components : Option ComponentsJson
  enhanced_prompt : Option String
deriving Repr, DecidableEq

/-- Falsiness of `components.get("base_prompt")` followed by
`not components["base_prompt"].strip()`: a `null`, empty or whitespace-only
value. -/
def blankOptStr (o : Option String) : Bool :=
  match o with
  | none => true
  | some s => s.isEmpty || s.trim.isEmpty

/-- The validated output of `_generate_enhanced_style_with_components`: after
parsing, every component value is a string. -/
structure EnhancedResult where
  components : StyleComponents
  enhanced_prompt : String
deriving Repr, DecidableEq

/-- `ArtStyleService._generate_enhanced_style_with_components`, response
handling (art_style_service.py 536-572): malformed JSON raises; a missing
`components` key raises; any of the 6 required component keys missing raises;
a blank `base_prompt` value is replaced by the callers raw input; a `null`
value of the other 5 keys becomes the empty string. -/
def generate_enhanced_parse (custom_prompt : String) (resp : Option EnhanceResp) :
    Except String EnhancedResult :=
  match resp with
  | none => .error "AI response is not valid JSON"
  | some r =>
      match r.components with
      | none => .error "AI response is missing the components key"
      | some c =>
          if (missingComponentFields c).isEmpty then
            .ok { components :=
                    { base_prompt :=
                        if blankOptStr (c.base_prompt.getD none) then custom_prompt
                        else (c.base_prompt.getD none).getD ""
                      color_palette := some ((c.color_palette.getD none).getD "")
                      effects := some ((c.effects.getD none).getD "")
                      materials := some ((c.materials.getD none).getD "")
                      lighting := some ((c.lighting.getD none).getD "")
                      description := some ((c.description.getD none).getD "") }
                  enhanced_prompt := r.enhanced_prompt.getD custom_prompt }
          else
            .error ("AI response components missing required fields: "
                      ++ String.intercalate ", " (missingComponentFields c))

/-- `ArtStyleService.generate_custom_ai_enhanced_style`: strips the caller
prompt, parses the single AI call response, and assembles the descriptor. The
provider and model validation steps that precede the AI call are not modelled
here (they raise before any response exists). -/
def generate_custom_ai_enhanced_style (custom_prompt : String)
    (resp : Option EnhanceResp) : Except String StyleDescriptor :=
  let cp := custom_prompt.trim
  match generate_enhanced_parse cp resp with
  | .error e => .error e
  | .ok r =>
      .ok { style_prompt :=
              String.intercalate ", "
                ((([some r.components.base_prompt, r.components.color_palette,
                    r.components.effects, r.components.materials,
                    r.components.lighting].filter optTruthyStrip).map (fun o => o.getD ""))
                  ++ ["isolated on transparent background",
                      "centered design, game asset style",
                      "high quality, professional design"])
            mode := "custom_ai_enhanced"
            components := r.components
            quality_tags := "high quality, game asset style, professional design" }

/-- The model response of the reference-image analysis: `none` for a reply
that is not well-formed JSON; otherwise the `style_description` and
`components` keys. -/
structure AnalyzeResp where
  style_description : Option (Option String)
  components : Option ComponentsJson
deriving Repr, DecidableEq

/-- The validated output of `_analyze_images_and_generate_components`. -/
structure AnalyzeResult where
  style_description : Option String
  components : StyleComponents
deriving Repr, DecidableEq

/-- `ArtStyleService._analyze_images_and_generate_components`, response
handling (art_style_service.py 631-660): malformed JSON raises; a missing
`components` or `style_description` key raises; any of the 6 required
component keys missing raises; every `null` component value becomes the
empty string — including `base_prompt`, which is NOT substituted here. -/
def analyze_images_parse (resp : Option AnalyzeResp) : Except String AnalyzeResult :=
  match resp with
  | none => .error "AI image analysis response is not valid JSON"
  | some r =>
      match r.components, r.style_description with
      | none, _ => .error "AI response missing required fields: components or style_description"
      | some _, none => .error "AI response missing required fields: components or style_description"
      | some c, some sd =>
          if (missingComponentFields c).isEmpty then
            .ok { style_description := sd
                  components :=
                    { base_prompt := (c.base_prompt.getD none).getD ""
                      color_palette := some ((c.color_palette.getD none).getD "")
                      effects := some ((c.effects.getD none).getD "")
                      materials := some ((c.materials.getD none).getD "")
                      lighting := some ((c.lighting.getD none).getD "")
                      description := some ((c.description.getD none).getD "") } }
          else
            .error ("AI response components missing required fields: "
                      ++ String.intercalate ", " (missingComponentFields c))

/-! ## Reference-image style resolution as a run over external outcomes
(`ArtStyleService.generate_reference_image_style` and its S3 helpers) -/

/-- The outcome of `_upload_temp_image` for one image:
`failBeforeUpload` — `read()` or `upload_file_sync` raises, no object stored;
`presignFail` — the object is stored under `key` but
`generate_presigned_url` raises, so no record reaches `upload_results`;
`staged` — stored and recorded in `upload_results`. -/
inductive StageOutcome where
  | failBeforeUpload
  | presignFail (key : String)
  | staged (key : String)
deriving Repr, DecidableEq

/-- The outcome of one `s3_service.delete_file` call. -/
inductive DeleteOutcome where
  | succeeded
  | failed
  | raised
deriving Repr, DecidableEq

/-- `ArtStyleService._cleanup_temp_image`: the delete is attempted, a `False`
return is only logged, and every exception is caught and turned into `False`
— the helper never raises. -/
def cleanup_temp_image (d : DeleteOutcome) : Except String Bool :=
  match d with
  | .succeeded => .ok true
  | .failed => .ok false
  | .raised => .ok false

/-- The upload loop of `generate_reference_image_style` (lines 342-346):
processes the images in order, stopping at the first raising staging call.
Returns (keys of objects stored in S3, keys recorded in `upload_results`,
the raised error if any). -/
def stage_loop : List StageOutcome → List String × List String × Option String
  | [] => ([], [], none)
  | .failBeforeUpload :: _ => ([], [], some "temp image upload failed")
  | .presignFail k :: _ => ([k], [], some "presigned url generation failed")
  | .staged k :: rest =>
      let (u, r, e) := stage_loop rest
      (k :: u, k :: r, e)

/-- The `finally` loop (lines 394-397): invokes `_cleanup_temp_image` on each
recorded key in order; returns the keys whose delete was invoked, and an error
if a cleanup call raised (which would replace the in-flight result). -/
def run_cleanup_all (del : String → DeleteOutcome) :
    List String → List String × Except String Unit
  | [] => ([], .ok ())
  | k :: rest =>
      match cleanup_temp_image (del k) with
      | .error e => ([k], .error e)
      | .ok _ =>
          let (ks, res) := run_cleanup_all del rest
          (k :: ks, res)

/-- The external-world outcomes one reference-image style call runs against:
model validation, capability check, the per-image staging outcomes (after the
`max_images` truncation), and the multimodal analysis call (`.error` = the
provider call raised, `.ok` = the returned payload). -/
structure RefStyleEnv where
  model_valid : Bool
  capability_ok : Bool
  stages : List StageOutcome
  analysis : Except String (Option AnalyzeResp)
deriving Repr

/-- Descriptor assembly of `generate_reference_image_style` (lines 353-389). -/
def mkRefDescriptor (a : AnalyzeResult) : StyleDescriptor :=
  { style_prompt :=
      String.intercalate ", "
        ((([a.style_description, a.components.color_palette, a.components.effects,
            a.components.materials, a.components.lighting].filter optTruthyStrip).map
            (fun o => o.getD ""))
          ++ ["isolated on transparent background",
              "centered design, game asset style",
              "high quality, professional design"])
    mode := "reference_image"
    components := a.components
    quality_tags := "high quality, game asset style, professional design" }

/-- What one reference-image style call did: the value returned (or error
raised), the keys of all temporary objects stored in S3, the keys recorded in
`upload_results`, and the keys whose delete was invoked. -/
structure RunResult where
  result : Except String StyleDescriptor
  uploaded : List String
  recorded : List String
  deleted : List String
deriving Repr

/-- `ArtStyleService.generate_reference_image_style` (lines 302-397): the
validations, the staging loop, the analysis call and the descriptor assembly
inside `try`, then the cleanup loop in `finally` on every exit path. -/
def generate_reference_image_style (env : RefStyleEnv)
    (del : String → DeleteOutcome) : RunResult :=
  let attempt : Except String StyleDescriptor × List String × List String :=
    if !env.model_valid then (.error "model not available for provider", [], [])
    else if !env.capability_ok then (.error "model does not support image analysis", [], [])
    else if env.stages.isEmpty then (.error "at least one reference image is required", [], [])
    else
      let (u, r, e) := stage_loop env.stages
      match e with
      | some msg => (.error msg, u, r)
      | none =>
          match env.analysis with
          | .error msg => (.error msg, u, r)
          | .ok resp =>
              match analyze_images_parse resp with
              | .error msg => (.error msg, u, r)
              | .ok a => (.ok (mkRefDescriptor a), u, r)
  let (delKeys, cleanupRes) := run_cleanup_all del attempt.2.2
  { result := match cleanupRes with
      | .error e => .error e
      | .ok _ => attempt.1
    uploaded := attempt.2.1
    recorded := attempt.2.2
    deleted := delKeys }

/-! ## Reference image lookup
(`FileProcessingService.get_reference_image_urls_for_task`) -/

/-- Python substring containment `needle in hay`. -/
def containsSubstr (hay needle : String) : Bool :=
  (List.range (hay.length + 1)).any fun i => needle.isPrefixOf (hay.drop i)

/-- `FileProcessingService.get_reference_image_urls_for_task`
(file_processing_service.py 281-337): builds the three lookup paths in
priority order, appends the URL of EVERY path present in the map (the loop
has no break), and only when none matched falls back to a fuzzy substring
scan over all map entries. -/
def get_reference_image_urls_for_task (category subcategory filename : String)
    (image_urls : List (String × String)) : List String :=
  let lookup_paths :=
    [category ++ "." ++ subcategory ++ "." ++ filename,
     category ++ "." ++ subcategory,
     category]
  let found_urls := lookup_paths.filterMap fun p => image_urls.lookup p
  if found_urls.isEmpty then
    image_urls.filterMap fun kv =>
      if (containsSubstr kv.1 category && containsSubstr kv.1 subcategory)
          || containsSubstr kv.1 filename then some kv.2 else none
  else found_urls

/-! ## Concrete inputs used by the counterexamples and witnesses -/

/-- A symbols request whose only content bucket is a non-empty dict holding
one subcategory with an empty item list: truthy for the pydantic validator,
yet it decomposes to zero tasks. -/
def emptyItemsParams : SymbolsGenerationInput :=
  { base_symbols := some [("low_value", [])]
    special_symbols := none
    custom_content := none
    default_resolution := "1024x1024" }

/-- A concrete decomposed task. -/
def task0 : TaskInfo :=
  { category := "base_symbols"
    subcategory := "low_value"
    filename := "ace_hearts"
    description := "Ace of Hearts"
    index := 1
    resolution := "512x512"
    has_template := false
    from_reference := false }

/-- A concrete style data dict. -/
def style0 : StyleData :=
  { style_prompt := some "fantasy art", quality_tags := some "high quality" }

/-- A well-formed reference-image analysis response whose `base_prompt` value
is present but empty. -/
def analyzedEmptyBase : AnalyzeResp :=
  { style_description := some (some "soft watercolor style")
    components := some
      { base_prompt := some (some "")
        color_palette := some (some "pastel tones")
        effects := some (some "soft glow")
        materials := some (some "paper texture")
        lighting := some (some "diffuse light")
        description := some (some "watercolor") } }

/-- A reference-image run that passes validation, stages one image, and gets
the `analyzedEmptyBase` response back. -/
def refEnvEmptyBase : RefStyleEnv :=
  { model_valid := true
    capability_ok := true
    stages := [.staged "art-style/temp/2026-01-01/t0/img_0.png"]
    analysis := .ok (some analyzedEmptyBase) }

/-- A reference-image run in which the first staging call stores its object
and then raises while generating the presigned URL. -/
def presignFailEnv : RefStyleEnv :=
  { model_valid := true
    capability_ok := true
    stages := [.presignFail "art-style/temp/2026-01-01/t1/img_0.png"]
    analysis := .error "unreached"}

/-- Delete calls that always succeed. -/
def delOk : String → DeleteOutcome := fun _ => .succeeded

/-- An image URL map holding both the exact three-part key and the coarser
subcategory key of one task. -/
def cexUrlMap : List (String × String) :=
  [("symbols.wild.dragon", "https://s3/url-exact"),
   ("symbols.wild", "https://s3/url-sub")]

/-! ## Helper lemmas -/

/-- A value found by association list lookup is among the stored values. -/
theorem mem_snd_of_lookup {α β : Type} [BEq α] (k : α) (v : β) :
    ∀ l : List (α × β), l.lookup k = some v → v ∈ l.map Prod.snd := by
  intro l
  induction l with
  | nil => intro h; simp [List.lookup] at h
  | cons p rest ih =>
      obtain ⟨a, b⟩ := p
      intro h
      rw [List.lookup] at h
      cases hk : (k == a) with
      | true =>
          rw [hk] at h
          simp only [Option.some.injEq] at h
          simp [← h]
      | false =>
          rw [hk] at h
          simp only [List.map_cons, List.mem_cons]
          exact Or.inr (ih h)

/-! ## C1 — module status aggregation rule -/

/-- C1 counterexample: a request whose only bucket holds an empty item list is
accepted, decomposes to zero tasks, and a run with zero successes out of zero
total is reported `completed` — not `failed` as the claim (successes == 0 iff
`failed`, `completed` requiring total > 0) would have it. -/
theorem module_status_zero_total_cex :
    validate_at_least_one_content emptyItemsParams = true
    ∧ parse_generation_tasks emptyItemsParams = []
    ∧ build_result_status 0 emptyItemsParams = "completed"
    ∧ build_result_status 0 emptyItemsParams ≠ "failed" :=
  ⟨rfl, rfl, rfl, by decide⟩

/-- C1 (amended): with `total` recomputed from the declared generation params
(as `_build_result` and `_execute_parallel_modules` do), the reported status
is `completed` iff successes == total — including successes == total == 0 —
`partial_completed` iff successes > 0 and successes ≠ total, and `failed` iff
successes == 0 < total. -/
theorem module_status_rule_amended (p : SymbolsGenerationInput) (s : Nat) :
    (build_result_status s p = "completed" ↔ s = (parse_generation_tasks p).length)
    ∧ (build_result_status s p = "partial_completed"
        ↔ s ≠ (parse_generation_tasks p).length ∧ 0 < s)
    ∧ (build_result_status s p = "failed"
        ↔ s = 0 ∧ (parse_generation_tasks p).length ≠ 0) := by
  unfold build_result_status moduleStatus
  by_cases h1 : s = (parse_generation_tasks p).length
  · rw [if_pos h1]
    refine ⟨⟨fun _ => h1, fun _ => rfl⟩, ?_, ?_⟩
    · constructor
      · intro hc; exact absurd hc (by decide)
      · intro hpc; exact absurd h1 hpc.1
    · constructor
      · intro hc; exact absurd hc (by decide)
      · intro hf; exact absurd (h1 ▸ hf.1) hf.2
  · rw [if_neg h1]
    by_cases h2 : s ≠ 0
    · rw [if_pos h2]
      refine ⟨?_, ?_, ?_⟩
      · constructor
        · intro hc; exact absurd hc (by decide)
        · intro he; exact absurd he h1
      · exact ⟨fun _ => ⟨h1, Nat.pos_of_ne_zero h2⟩, fun _ => rfl⟩
      · constructor
        · intro hc; exact absurd hc (by decide)
        · intro hf; exact absurd hf.1 h2
    · rw [if_neg h2]
      push_neg at h2
      refine ⟨?_, ?_, ?_⟩
      · constructor
        · intro hc; exact absurd hc (by decide)
        · intro he; exact absurd he h1
      · constructor
        · intro hc; exact absurd hc (by decide)
        · intro hpc; rw [h2] at hpc; exact absurd hpc.2 (by simp)
      · refine ⟨fun _ => ⟨h2, fun h0 => h1 ?_⟩, fun _ => rfl⟩
        rw [h2, h0]

/-! ## C2 — per-item task expansion -/

/-- C2: an item with count N expands to exactly N tasks, whose `index` field
runs 1..N in order (hence each value exactly once) and whose other fields are
the constant category, subcategory, filename, description and resolution
(item override if present, else the request default); and the category
decomposition is exactly the iterated expansion of its items. -/
theorem item_decomposition_exact (c s : String) (item : ImageAssetItem) (d : String) :
    (itemTasks c s item d).length = item.count
    ∧ (itemTasks c s item d).map TaskInfo.index = List.range' 1 item.count
    ∧ (∀ t ∈ itemTasks c s item d,
        t.category = c ∧ t.subcategory = s ∧ t.filename = item.filename
          ∧ t.description = item.description ∧ t.resolution = item.resolution.getD d)
    ∧ (∀ data : List (String × List ImageAssetItem),
        parse_category_tasks c data d
          = data.flatMap fun sub => sub.2.flatMap fun it => itemTasks c sub.1 it d) := by
  refine ⟨?_, ?_, ?_, fun _ => rfl⟩
  · simp [itemTasks]
  · simp only [itemTasks, List.map_map, Function.comp_def]
    rw [List.range'_eq_map_range]
    simp [Nat.add_comm]
  · intro t ht
    simp only [itemTasks, List.mem_map, List.mem_range] at ht
    obtain ⟨i, _, rfl⟩ := ht
    exact ⟨rfl, rfl, rfl, rfl, rfl⟩

/-! ## C7 — request-parsing failure rule -/

/-- C7 counterexample: a symbols request whose only content bucket maps one
subcategory to an empty item list contains no item at all, yet request parsing
succeeds and the request proceeds with an empty task set, instead of failing
with a validation error as claimed. -/
theorem empty_bucket_passes_validation_cex :
    parse_request_symbols "symbols" emptyItemsParams = .ok emptyItemsParams
    ∧ parse_generation_tasks emptyItemsParams = [] :=
  ⟨rfl, rfl⟩

/-- C7 (amended): an unrecognized module name fails with a raised
`ValueError`; pydantic validation fails only when every content bucket is
`None` or an empty mapping (a bucket whose subcategories all map to empty
item lists is truthy, passes, and the request proceeds — possibly with an
empty task set); otherwise parsing succeeds. -/
theorem parse_request_failure_rule_amended (module : String)
    (raw : SymbolsGenerationInput) :
    (¬(module = "symbols" ∨ module = "ui" ∨ module = "backgrounds") →
      parse_request_symbols module raw
        = .error (.valueError ("unsupported module: " ++ module)))
    ∧ (validate_at_least_one_content raw = false →
      parse_request_symbols "symbols" raw
        = .error (.pydanticValidationError
            "at least one of base_symbols, special_symbols, custom_content is required"))
    ∧ (validate_at_least_one_content raw = true →
      parse_request_symbols "symbols" raw = .ok raw)
    ∧ (validate_at_least_one_content raw = true
        ↔ dictTruthy raw.base_symbols = true ∨ dictTruthy raw.special_symbols = true
            ∨ dictTruthy raw.custom_content = true) := by
  refine ⟨?_, ?_, ?_, ?_⟩
  · intro h
    unfold parse_request_symbols
    rw [if_neg h]
  · intro h
    unfold parse_request_symbols mkSymbolsGenerationInput
    rw [if_pos (Or.inl rfl), if_neg (by simp [h])]
  · intro h
    unfold parse_request_symbols mkSymbolsGenerationInput
    rw [if_pos (Or.inl rfl), if_pos h]
  · unfold validate_at_least_one_content
    simp [Bool.or_eq_true, or_assoc]

/-! ## C4 — complete prompt clause order -/

set_option maxRecDepth 65536 in
/-- C4 counterexample: at a concrete task the prompt the code builds differs
from the claimed one, because the technical spec clause the code emits is
`"Technical specs: {resolution} resolution, isolated on transparent
background"`, not exactly `"{resolution} resolution, isolated on transparent
background"`. -/
theorem technical_clause_missing_prefix_cex :
    symbols_complete_prompt task0 style0 none
      ≠ claimed_prompt_spec_clause (build_content_prompt task0) style0 task0 none := by
  decide

/-- C4 (amended): the complete prompt is built in the claimed fixed clause
order — content clauses, `Art style: `, `Category/Subcategory`, optional
reference clauses, technical spec, `Quality: ` — joined by `", "`, with the
technical spec clause prefixed by `Technical specs: `. -/
theorem complete_prompt_clause_order_amended (contentPrompt : String)
    (style : StyleData) (task : TaskInfo) (ref : Option RefData) :
    build_complete_prompt contentPrompt style task ref
      = claimed_prompt_amended contentPrompt style task ref := by
  unfold build_complete_prompt claimed_prompt_amended claimed_ref_clauses
  cases ref <;> simp

/-! ## C9 — deterministic prompt composition -/

/-- C9: composing the complete symbols prompt twice from the same
(task, style data, reference data) triple yields byte-identical strings. -/
theorem prompt_composition_deterministic (t1 t2 : TaskInfo) (s1 s2 : StyleData)
    (r1 r2 : Option RefData) (ht : t1 = t2) (hs : s1 = s2) (hr : r1 = r2) :
    symbols_complete_prompt t1 s1 r1 = symbols_complete_prompt t2 s2 r2 := by
  rw [ht, hs, hr]

/-- C9 witness: the determinism theorem at a concrete triple. -/
theorem prompt_composition_deterministic_witness :
    symbols_complete_prompt task0 style0 none = symbols_complete_prompt task0 style0 none :=
  prompt_composition_deterministic task0 task0 style0 style0 none none rfl rfl rfl

/-- What the AI-enhanced parse yields for `base_prompt` when it succeeds on a
response whose components block is `cj`. -/
theorem enhanced_parse_base_prompt (cp : String) (rr : EnhanceResp)
    (cj : ComponentsJson) (r : EnhancedResult) (hc : rr.components = some cj)
    (h : generate_enhanced_parse cp (some rr) = .ok r) :
    r.components.base_prompt
      = (if blankOptStr (cj.base_prompt.getD none) then cp
         else (cj.base_prompt.getD none).getD "") := by
  simp only [generate_enhanced_parse, hc] at h
  by_cases hm : (missingComponentFields cj).isEmpty
  · rw [if_pos hm] at h
    simp only [Except.ok.injEq] at h
    rw [← h]
  · rw [if_neg (by simp [hm])] at h
    exact absurd h (by simp)

/-! ## C3 — non-empty base_prompt across the style modes -/

/-- C3 counterexample: a reference-image resolution run whose well-formed
analysis response carries `"base_prompt": ""` returns successfully with an
empty `components.base_prompt` — the reference-image resolver performs no
substitution. -/
theorem reference_image_empty_base_prompt_cex :
    ((generate_reference_image_style refEnvEmptyBase delOk).result.map
        fun d => (d.mode, d.components.base_prompt))
      = Except.ok ("reference_image", "") := rfl

/-- C3 (amended): the preset, direct and AI-enhanced resolvers always return
a non-empty `components.base_prompt` (the AI-enhanced resolver substituting
the callers stripped raw text when the parsed one is blank), but the
reference-image resolver can return an empty one. -/
theorem base_prompt_nonempty_amended (theme : String) (c : DirectComponents)
    (cp : String) (resp : Option EnhanceResp) :
    (∀ d, generate_preset_style theme = .ok d → d.components.base_prompt ≠ "")
    ∧ (∀ d, handle_custom_direct_style_generation c = .ok d →
        d.components.base_prompt ≠ "")
    ∧ (cp.trim ≠ "" → ∀ d, generate_custom_ai_enhanced_style cp resp = .ok d →
        d.components.base_prompt ≠ "") := by
  refine ⟨?_, ?_, ?_⟩
  · intro d hd
    unfold generate_preset_style at hd
    cases hl : preset_themes.lookup theme with
    | none => rw [hl] at hd; exact absurd hd (by simp)
    | some cfg =>
        rw [hl] at hd
        simp only [Except.ok.injEq] at hd
        have hmem := mem_snd_of_lookup theme cfg preset_themes hl
        have hne : ∀ v ∈ preset_themes.map Prod.snd, v.base_prompt ≠ "" := by decide
        rw [← hd]
        exact hne cfg hmem
  · intro d hd
    unfold handle_custom_direct_style_generation at hd
    by_cases hb : c.base_prompt.isEmpty
    · rw [if_pos hb] at hd; exact absurd hd (by simp)
    · rw [if_neg hb] at hd
      simp only [Except.ok.injEq] at hd
      have hbp0 : (generate_custom_direct_style c).components.base_prompt
          = c.base_prompt := rfl
      rw [← hd, hbp0]
      intro heq
      exact hb (by rw [heq]; rfl)
  · intro hcp d hd
    simp only [generate_custom_ai_enhanced_style] at hd
    cases hp : generate_enhanced_parse cp.trim resp with
    | error e => rw [hp] at hd; exact absurd hd (by simp)
    | ok r =>
        rw [hp] at hd
        simp only [Except.ok.injEq] at hd
        have hdb : d.components.base_prompt = r.components.base_prompt := by
          rw [← hd]
        rw [hdb]
        cases resp with
        | none => exact absurd hp (by simp [generate_enhanced_parse])
        | some rr =>
            cases hc : rr.components with
            | none =>
                simp only [generate_enhanced_parse, hc] at hp
                exact Except.noConfusion hp
            | some cj =>
                rw [enhanced_parse_base_prompt cp.trim rr cj r hc hp]
                by_cases hblank : blankOptStr (cj.base_prompt.getD none)
                · rw [if_pos hblank]; exact hcp
                · rw [if_neg hblank]
                  cases hb : cj.base_prompt.getD none with
                  | none => rw [hb] at hblank; exact absurd rfl hblank
                  | some s =>
                      rw [hb] at hblank
                      simp only [blankOptStr, Bool.or_eq_true] at hblank
                      push_neg at hblank
                      simp only [Option.getD_some]
                      intro heq
                      exact hblank.1 (by rw [heq]; rfl)

/-! ## C5 — AI-enhanced structured response handling -/

/-- C5: the AI-enhanced response handling — a reply that is not well-formed
JSON raises; a reply missing the `components` key raises; a reply whose
components lack any of the 6 required keys raises (the validation); when all
6 keys are present the parse succeeds, a blank (null, empty or whitespace)
`base_prompt` value is replaced by the callers raw input, a non-blank one is
kept verbatim, and a `null` value of any of the other 5 keys defaults to the
empty string. -/
theorem enhanced_response_validation (cp : String) (c : ComponentsJson)
    (ep : Option String) :
    (generate_enhanced_parse cp none = .error "AI response is not valid JSON")
    ∧ (generate_enhanced_parse cp (some { components := none, enhanced_prompt := ep })
        = .error "AI response is missing the components key")
    ∧ ((missingComponentFields c).isEmpty = false →
        ∃ msg, generate_enhanced_parse cp (some { components := some c, enhanced_prompt := ep })
          = .error msg)
    ∧ ((missingComponentFields c).isEmpty = true →
        ∃ r, generate_enhanced_parse cp (some { components := some c, enhanced_prompt := ep })
            = .ok r
          ∧ (blankOptStr (c.base_prompt.getD none) = true → r.components.base_prompt = cp)
          ∧ (∀ s, c.base_prompt = some (some s) → blankOptStr (some s) = false →
              r.components.base_prompt = s)
          ∧ (c.color_palette = some none → r.components.color_palette = some "")
          ∧ (c.effects = some none → r.components.effects = some "")
          ∧ (c.materials = some none → r.components.materials = some "")
          ∧ (c.lighting = some none → r.components.lighting = some "")
          ∧ (c.description = some none → r.components.description = some "")) := by
  refine ⟨rfl, rfl, ?_, ?_⟩
  · intro hm
    simp only [generate_enhanced_parse]
    rw [if_neg (by simp [hm])]
    exact ⟨_, rfl⟩
  · intro hm
    simp only [generate_enhanced_parse]
    rw [if_pos hm]
    refine ⟨_, rfl, ?_, ?_, ?_, ?_, ?_, ?_, ?_⟩
    · intro hb; simp only [hb, if_true]
    · intro s hs hb
      simp only [hs, Option.getD_some, hb, if_false, Bool.false_eq_true]
    · intro h; simp [h]
    · intro h; simp [h]
    · intro h; simp [h]
    · intro h; simp [h]
    · intro h; simp [h]

/-- The cleanup loop invokes the delete on every recorded key. -/
theorem run_cleanup_all_fst (del : String → DeleteOutcome) :
    ∀ ks : List String, (run_cleanup_all del ks).1 = ks := by
  intro ks
  induction ks with
  | nil => rfl
  | cons k rest ih =>
      unfold run_cleanup_all
      cases hd : del k <;> simp [cleanup_temp_image, ih]

/-- The cleanup loop never raises: `_cleanup_temp_image` swallows every
delete failure. -/
theorem run_cleanup_all_ok (del : String → DeleteOutcome) :
    ∀ ks : List String, (run_cleanup_all del ks).2 = .ok () := by
  intro ks
  induction ks with
  | nil => rfl
  | cons k rest ih =>
      unfold run_cleanup_all
      cases hd : del k <;> simp [cleanup_temp_image, ih]

/-! ## C6 — cleanup of staged temporary objects on every exit path -/

/-- C6 counterexample: a run whose single staging call stores its object and
then raises while generating the presigned URL exits with the object in
storage and no delete ever invoked for it — a staged temporary object whose
deletion is not invoked on that exit path. -/
theorem staged_object_leak_cex :
    (generate_reference_image_style presignFailEnv delOk).uploaded
      = ["art-style/temp/2026-01-01/t1/img_0.png"]
    ∧ (generate_reference_image_style presignFailEnv delOk).deleted = []
    ∧ (generate_reference_image_style presignFailEnv delOk).result.isOk = false :=
  ⟨rfl, rfl, rfl⟩

/-- C6 (amended): on every exit path — success, validation failure, staging
failure, provider error or malformed analysis alike — the `finally` block
invokes deletion for exactly the keys recorded in `upload_results`, i.e. for
every staging call that returned successfully; an object uploaded by a staging
call that then raised while generating its presigned URL is not among them. -/
theorem recorded_objects_always_cleaned_amended (env : RefStyleEnv)
    (del : String → DeleteOutcome) :
    (generate_reference_image_style env del).deleted
      = (generate_reference_image_style env del).recorded := by
  unfold generate_reference_image_style
  simp [run_cleanup_all_fst]

/-! ## C10 — cleanup failures never change the call outcome -/

/-- C10: `_cleanup_temp_image` turns every delete outcome — success, a
`False` return, or a raised exception — into a plain boolean and never
raises, so the value returned (or error propagated) by
`generate_reference_image_style` is identical whatever the delete outcomes
are. -/
theorem cleanup_failure_isolated (env : RefStyleEnv)
    (d1 d2 : String → DeleteOutcome) :
    (generate_reference_image_style env d1).result
      = (generate_reference_image_style env d2).result
    ∧ (∀ o : DeleteOutcome, ∃ b : Bool, cleanup_temp_image o = .ok b) := by
  constructor
  · unfold generate_reference_image_style
    simp [run_cleanup_all_ok]
  · intro o
    cases o
    · exact ⟨true, rfl⟩
    · exact ⟨false, rfl⟩
    · exact ⟨false, rfl⟩

/-! ## C8 — reference image lookup priority -/

/-- C8 counterexample: with both the exact `category.subcategory.filename`
key and the coarser `category.subcategory` key present, the lookup returns
both URLs, not only the one of the highest-priority key. -/
theorem ref_lookup_not_best_match_cex :
    get_reference_image_urls_for_task "symbols" "wild" "dragon" cexUrlMap
      = ["https://s3/url-exact", "https://s3/url-sub"]
    ∧ get_reference_image_urls_for_task "symbols" "wild" "dragon" cexUrlMap
      ≠ ["https://s3/url-exact"] :=
  ⟨rfl, by decide⟩

/-- C8 (amended): the lookup appends the URL of EVERY one of the three keys
present in the map, in the priority order exact, subcategory, category (so
the exact match, when present, comes first); only when none of the three is
present does it fall back to a fuzzy substring scan of all entries. -/
theorem ref_lookup_appends_all_matches_amended (category subcategory filename : String)
    (m : List (String × String)) :
    ([category ++ "." ++ subcategory ++ "." ++ filename,
      category ++ "." ++ subcategory, category].filterMap (fun p => m.lookup p) ≠ [] →
      get_reference_image_urls_for_task category subcategory filename m
        = [category ++ "." ++ subcategory ++ "." ++ filename,
           category ++ "." ++ subcategory, category].filterMap (fun p => m.lookup p))
    ∧ ([category ++ "." ++ subcategory ++ "." ++ filename,
        category ++ "." ++ subcategory, category].filterMap (fun p => m.lookup p) = [] →
        get_reference_image_urls_for_task category subcategory filename m
          = m.filterMap (fun kv =>
              if (containsSubstr kv.1 category && containsSubstr kv.1 subcategory)
                  || containsSubstr kv.1 filename then some kv.2 else none))
    ∧ (∀ u, m.lookup (category ++ "." ++ subcategory ++ "." ++ filename) = some u →
        (get_reference_image_urls_for_task category subcategory filename m).head?
          = some u) := by
  refine ⟨?_, ?_, ?_⟩
  · intro h
    unfold get_reference_image_urls_for_task
    rw [if_neg (by simp [List.isEmpty_iff, h])]
  · intro h
    unfold get_reference_image_urls_for_task
    rw [if_pos (by simp [List.isEmpty_iff, h])]
  · intro u hu
    unfold get_reference_image_urls_for_task
    simp only [List.filterMap_cons, hu]
    rw [if_neg (by simp [List.isEmpty_iff])]
    rfl

end AIArt
